import Mathlib

/-!
Verification of the SerLCD_cI2C display driver (`src/serLCD_cI2C.h`,
`src/unnamed/part_001`).

The C++ code is shallowly embedded as follows.

* Machine bytes are `Nat`s; every place where C++ truncates to a byte
  (a `byte` parameter or a `byte` field assignment) applies `% 256`
  explicitly.
* The active transport (`_i2cPort` / `_serialPort` / `_spiPort`) is a
  `Port`.  The custom I2C library's status codes are abstracted by an
  oracle `ok : Nat → Bool` giving, for the n-th underlying I2C
  primitive call of a session, whether that call returns `I2C_STATUS_OK`.
* A `Sys` carries the driver's shadow fields (`_i2cAddr`,
  `_displayControl`, `_displayMode`), the count of I2C primitive calls
  consumed so far, and a trace of observable wire events
  (frame open with the address used, bytes sent, frame close,
  `delay` calls).
* The three transport primitives return `Option Bool`: `some b`
  models `return b`, and `none` models control falling off the end of
  a non-void C++ function (undefined behaviour) — which happens in
  `beginTransmission` / `endTransmission` when the serial port is
  active, since those functions have no `return` on that path.
* The C++ short-circuit `&&` chains are `andThen` chains; the
  `if (chain) { delay(n); return true; } else { return false; }`
  pattern is `finish n`.
-/

namespace SerLCD

/-! ### Constants from `serLCD_cI2C.h` -/

def DISPLAY_ADDRESS1 : Nat := 0x72
def MAX_ROWS : Nat := 4
def MAX_COLUMNS : Nat := 20
def SPECIAL_COMMAND : Nat := 254
def SETTING_COMMAND : Nat := 0x7C
def CLEAR_COMMAND : Nat := 0x2D
def CONTRAST_COMMAND : Nat := 0x18
def ADDRESS_COMMAND : Nat := 0x19
def SET_RGB_COMMAND : Nat := 0x2B
def LCD_RETURNHOME : Nat := 0x02
def LCD_ENTRYMODESET : Nat := 0x04
def LCD_DISPLAYCONTROL : Nat := 0x08
def LCD_CURSORSHIFT : Nat := 0x10
def LCD_SETDDRAMADDR : Nat := 0x80
def LCD_ENTRYRIGHT : Nat := 0x00
def LCD_ENTRYLEFT : Nat := 0x02
def LCD_ENTRYSHIFTINCREMENT : Nat := 0x01
def LCD_ENTRYSHIFTDECREMENT : Nat := 0x00
def LCD_DISPLAYON : Nat := 0x04
def LCD_DISPLAYOFF : Nat := 0x00
def LCD_CURSORON : Nat := 0x02
def LCD_CURSOROFF : Nat := 0x00
def LCD_BLINKON : Nat := 0x01
def LCD_BLINKOFF : Nat := 0x00
def LCD_DISPLAYMOVE : Nat := 0x08
def LCD_CURSORMOVE : Nat := 0x00
def LCD_MOVERIGHT : Nat := 0x04
def LCD_MOVELEFT : Nat := 0x00

/-! ### Transport and driver state -/

/-- The active transport.  For the I2C variant, `ok n` tells whether the
n-th underlying I2C primitive call of the session returns
`I2C_STATUS_OK`. -/
inductive Port where
  | i2c (ok : Nat → Bool)
  | serialPt
  | spi

/-- Observable wire/timing events. -/
inductive Ev where
  | openF (addr : Nat)
  | send (b : Nat)
  | closeF
  | settle (units : Nat)
deriving DecidableEq, Repr

/-- The driver's fields (`_i2cAddr`, `_displayControl`, `_displayMode`)
together with the bound transport. -/
structure Drv where
  port : Port
  i2cAddr : Nat
  displayControl : Nat
  displayMode : Nat

/-- Full session state: driver fields, count of I2C primitive calls
consumed from the oracle, and the event trace so far. -/
structure Sys where
  drv : Drv
  step : Nat
  trace : List Ev

/-- `delay(n)`: record a settle of `n` time units. -/
def delay (s : Sys) (n : Nat) : Sys :=
  { s with trace := s.trace ++ [.settle n] }

/-- `SerLCD::beginTransmission`.  I2C: bus start addressed to
`_i2cAddr`, success per the status code.  SPI: assert chip select and
wait 10 units, always true.  Serial: the C++ function has no return
statement on this path (`none` = undefined result). -/
def beginTransmission (s : Sys) : Option Bool × Sys :=
  match s.drv.port with
  | .i2c ok =>
    if ok s.step then
      (some true, { s with step := s.step + 1,
                           trace := s.trace ++ [.openF s.drv.i2cAddr] })
    else
      (some false, { s with step := s.step + 1 })
  | .serialPt => (none, s)
  | .spi => (some true, { s with trace := s.trace ++ [.settle 10] })

/-- `SerLCD::transmit`.  I2C: send one byte, success per the status
code.  Serial and SPI: write the byte unconditionally, always true. -/
def transmit (s : Sys) (data : Nat) : Option Bool × Sys :=
  match s.drv.port with
  | .i2c ok =>
    if ok s.step then
      (some true, { s with step := s.step + 1,
                           trace := s.trace ++ [.send (data % 256)] })
    else
      (some false, { s with step := s.step + 1 })
  | .serialPt => (some true, { s with trace := s.trace ++ [.send (data % 256)] })
  | .spi => (some true, { s with trace := s.trace ++ [.send (data % 256)] })

/-- `SerLCD::endTransmission`.  I2C: bus stop, success per the status
code.  SPI: deassert chip select and wait 10 units, always true.
Serial: no return statement on this path (`none` = undefined result). -/
def endTransmission (s : Sys) : Option Bool × Sys :=
  match s.drv.port with
  | .i2c ok =>
    if ok s.step then
      (some true, { s with step := s.step + 1, trace := s.trace ++ [.closeF] })
    else
      (some false, { s with step := s.step + 1 })
  | .serialPt => (none, s)
  | .spi => (some true, { s with trace := s.trace ++ [.settle 10] })

/-- C++ short-circuit `&&`: continue only on `some true`; a `false` or
an undefined result propagates unchanged. -/
def andThen (r : Option Bool × Sys) (k : Sys → Option Bool × Sys) :
    Option Bool × Sys :=
  match r with
  | (some true, s) => k s
  | other => other

/-- The `if (chain) { delay(n); return true; } else { return false; }`
pattern closing most operations. -/
def finish (n : Nat) (r : Option Bool × Sys) : Option Bool × Sys :=
  match r with
  | (some true, s) => (some true, delay s n)
  | other => other

/-- Transmit each byte of a list in order, short-circuiting on the
first failure (the `for` loops of `createChar` / `write(buffer)`). -/
def seqTransmit (s : Sys) : List Nat → Option Bool × Sys
  | [] => (some true, s)
  | b :: rest => andThen (transmit s b) (fun s => seqTransmit s rest)

/-! ### Command framer -/

/-- `SerLCD::command`: frame, setting marker, command byte, close,
then 10-unit settle. -/
def command (s : Sys) (cmd : Nat) : Option Bool × Sys :=
  finish 10 <| andThen (beginTransmission s) (fun s =>
    andThen (transmit s SETTING_COMMAND) (fun s =>
      andThen (transmit s cmd) endTransmission))

/-- `SerLCD::specialCommand(byte)`: frame, special marker, command
byte, close, then 50-unit settle. -/
def specialCommand (s : Sys) (cmd : Nat) : Option Bool × Sys :=
  finish 50 <| andThen (beginTransmission s) (fun s =>
    andThen (transmit s SPECIAL_COMMAND) (fun s =>
      andThen (transmit s cmd) endTransmission))

/-- The `for (int i = 0; i < count; i++)` loop of
`specialCommand(byte, byte)`: send `count` marker+command pairs,
short-circuiting on the first failure. -/
def transmitPairs (s : Sys) (cmd : Nat) : Nat → Option Bool × Sys
  | 0 => (some true, s)
  | n + 1 =>
    andThen (transmit s SPECIAL_COMMAND) (fun s =>
      andThen (transmit s cmd) (fun s => transmitPairs s cmd n))

/-- `SerLCD::specialCommand(byte, byte)`: frame, `count`
marker+command pairs, close, then one 50-unit settle. -/
def specialCommandCount (s : Sys) (cmd count : Nat) : Option Bool × Sys :=
  finish 50 <| andThen (beginTransmission s) (fun s =>
    andThen (transmitPairs s cmd (count % 256)) endTransmission)

/-! ### Public operations -/

/-- `SerLCD::init`: initial display-control / entry-mode / clear
sequence in one frame, then 50-unit settle. -/
def init (s : Sys) : Option Bool × Sys :=
  finish 50 <| andThen (beginTransmission s) (fun s =>
    andThen (transmit s SPECIAL_COMMAND) (fun s =>
      andThen (transmit s (LCD_DISPLAYCONTROL ||| s.drv.displayControl)) (fun s =>
        andThen (transmit s SPECIAL_COMMAND) (fun s =>
          andThen (transmit s (LCD_ENTRYMODESET ||| s.drv.displayMode)) (fun s =>
            andThen (transmit s SETTING_COMMAND) (fun s =>
              andThen (transmit s CLEAR_COMMAND) endTransmission))))))

/-- `SerLCD::clear`: the clear command plus an extra 10-unit settle. -/
def clear (s : Sys) : Option Bool × Sys :=
  finish 10 (command s CLEAR_COMMAND)

/-- `SerLCD::home`. -/
def home (s : Sys) : Option Bool × Sys :=
  specialCommand s LCD_RETURNHOME

/-- The fixed row-offset table of `SerLCD::setCursor`. -/
def row_offsets : List Nat := [0x00, 0x40, 0x14, 0x54]

/-- `SerLCD::setCursor(col, row)`: clamp the row byte into
`[0, MAX_ROWS-1]`, then one special command
`LCD_SETDDRAMADDR | (col + row_offsets[row])`. -/
def setCursor (s : Sys) (col row : Nat) : Option Bool × Sys :=
  let row := min (max 0 (row % 256)) (MAX_ROWS - 1)
  specialCommand s (LCD_SETDDRAMADDR ||| (col % 256 + row_offsets.getD row 0))

/-- `SerLCD::createChar(location, charmap)`: mask the slot to 3 bits
and send, in one frame, the setting marker, `27 + location`, then the
8 glyph bytes (`charmap[0] .. charmap[7]`); 50-unit settle on
success.  A failed glyph transmit returns `false` without closing the
frame, exactly as the source does. -/
def createChar (s : Sys) (location : Nat) (charmap : List Nat) :
    Option Bool × Sys :=
  let loc := (location % 256) &&& 0x7
  finish 50 <| andThen (beginTransmission s) (fun s =>
    andThen (transmit s SETTING_COMMAND) (fun s =>
      andThen (transmit s (27 + loc)) (fun s =>
        andThen (seqTransmit s ([0, 1, 2, 3, 4, 5, 6, 7].map
            (fun i => charmap.getD i 0))) endTransmission)))

/-- `SerLCD::writeChar(location)`. -/
def writeChar (s : Sys) (location : Nat) : Option Bool × Sys :=
  command s (35 + ((location % 256) &&& 0x7))

/-- `SerLCD::write(uint8_t)`: primitive results are discarded. -/
def writeByte (s : Sys) (b : Nat) : Sys :=
  delay ((endTransmission (transmit (beginTransmission s).2 b).2).2) 10

/-- `SerLCD::write(buffer, size)`: one frame per call, all bytes
streamed inside it, primitive results discarded. -/
def writeBuffer (s : Sys) (buf : List Nat) : Sys :=
  delay ((endTransmission
    (buf.foldl (fun s b => (transmit s b).2) (beginTransmission s).2)).2) 10

/-- `SerLCD::write(const char *)`: a null pointer is a zero-length
no-op, otherwise as `write(buffer, strlen)`. -/
def writeStr (s : Sys) (str : Option (List Nat)) : Sys :=
  match str with
  | none => s
  | some l => writeBuffer s l

/-- `SerLCD::noDisplay`. -/
def noDisplay (s : Sys) : Option Bool × Sys :=
  let dc := (s.drv.displayControl &&& (255 ^^^ LCD_DISPLAYON)) % 256
  let s := { s with drv := { s.drv with displayControl := dc } }
  specialCommand s (LCD_DISPLAYCONTROL ||| dc)

/-- `SerLCD::display`. -/
def display (s : Sys) : Option Bool × Sys :=
  let dc := (s.drv.displayControl ||| LCD_DISPLAYON) % 256
  let s := { s with drv := { s.drv with displayControl := dc } }
  specialCommand s (LCD_DISPLAYCONTROL ||| dc)

/-- `SerLCD::noCursor`. -/
def noCursor (s : Sys) : Option Bool × Sys :=
  let dc := (s.drv.displayControl &&& (255 ^^^ LCD_CURSORON)) % 256
  let s := { s with drv := { s.drv with displayControl := dc } }
  specialCommand s (LCD_DISPLAYCONTROL ||| dc)

/-- `SerLCD::cursor`. -/
def cursor (s : Sys) : Option Bool × Sys :=
  let dc := (s.drv.displayControl ||| LCD_CURSORON) % 256
  let s := { s with drv := { s.drv with displayControl := dc } }
  specialCommand s (LCD_DISPLAYCONTROL ||| dc)

/-- `SerLCD::noBlink`. -/
def noBlink (s : Sys) : Option Bool × Sys :=
  let dc := (s.drv.displayControl &&& (255 ^^^ LCD_BLINKON)) % 256
  let s := { s with drv := { s.drv with displayControl := dc } }
  specialCommand s (LCD_DISPLAYCONTROL ||| dc)

/-- `SerLCD::blink`. -/
def blink (s : Sys) : Option Bool × Sys :=
  let dc := (s.drv.displayControl ||| LCD_BLINKON) % 256
  let s := { s with drv := { s.drv with displayControl := dc } }
  specialCommand s (LCD_DISPLAYCONTROL ||| dc)

/-- `SerLCD::scrollDisplayLeft()`. -/
def scrollDisplayLeft (s : Sys) : Option Bool × Sys :=
  specialCommand s (LCD_CURSORSHIFT ||| LCD_DISPLAYMOVE ||| LCD_MOVELEFT)

/-- `SerLCD::scrollDisplayLeft(count)`. -/
def scrollDisplayLeftN (s : Sys) (count : Nat) : Option Bool × Sys :=
  specialCommandCount s (LCD_CURSORSHIFT ||| LCD_DISPLAYMOVE ||| LCD_MOVELEFT) count

/-- `SerLCD::scrollDisplayRight()`. -/
def scrollDisplayRight (s : Sys) : Option Bool × Sys :=
  specialCommand s (LCD_CURSORSHIFT ||| LCD_DISPLAYMOVE ||| LCD_MOVERIGHT)

/-- `SerLCD::scrollDisplayRight(count)`. -/
def scrollDisplayRightN (s : Sys) (count : Nat) : Option Bool × Sys :=
  specialCommandCount s (LCD_CURSORSHIFT ||| LCD_DISPLAYMOVE ||| LCD_MOVERIGHT) count

/-- `SerLCD::moveCursorLeft()`. -/
def moveCursorLeft (s : Sys) : Option Bool × Sys :=
  specialCommand s (LCD_CURSORSHIFT ||| LCD_CURSORMOVE ||| LCD_MOVELEFT)

/-- `SerLCD::moveCursorLeft(count)`. -/
def moveCursorLeftN (s : Sys) (count : Nat) : Option Bool × Sys :=
  specialCommandCount s (LCD_CURSORSHIFT ||| LCD_CURSORMOVE ||| LCD_MOVELEFT) count

/-- `SerLCD::moveCursorRight()`. -/
def moveCursorRight (s : Sys) : Option Bool × Sys :=
  specialCommand s (LCD_CURSORSHIFT ||| LCD_CURSORMOVE ||| LCD_MOVERIGHT)

/-- `SerLCD::moveCursorRight(count)`. -/
def moveCursorRightN (s : Sys) (count : Nat) : Option Bool × Sys :=
  specialCommandCount s (LCD_CURSORSHIFT ||| LCD_CURSORMOVE ||| LCD_MOVERIGHT) count

/-- Arduino core `map(x, in_min, in_max, out_min, out_max)`
(`(x - in_min) * (out_max - out_min) / (in_max - in_min) + out_min`),
restricted to the nonnegative arguments used here. -/
def arduinoMap (x inMin inMax outMin outMax : Nat) : Nat :=
  (x - inMin) * (outMax - outMin) / (inMax - inMin) + outMin

/-- Red channel range mapping of `setBacklight(r, g, b)`. -/
def redVal (r : Nat) : Nat := 128 + arduinoMap (r % 256) 0 255 0 29

/-- Green channel range mapping of `setBacklight(r, g, b)`. -/
def greenVal (g : Nat) : Nat := 158 + arduinoMap (g % 256) 0 255 0 29

/-- Blue channel range mapping of `setBacklight(r, g, b)`. -/
def blueVal (b : Nat) : Nat := 188 + arduinoMap (b % 256) 0 255 0 29

/-- `SerLCD::setBacklight(byte, byte, byte)` (slow form): range-map
the three channels; open one frame; clear the display-on shadow bit
and resend display control; send the three mapped values as three
setting-command bytes; set the display-on shadow bit and resend
display control; close; 50-unit settle.  Failure exits mirror the
source exactly (in particular the shadow bit is not rolled back). -/
def setBacklightRGB (s : Sys) (r g b : Nat) : Option Bool × Sys :=
  let red := redVal r
  let green := greenVal g
  let blue := blueVal b
  match beginTransmission s with
  | (some true, s) =>
    let dc1 := (s.drv.displayControl &&& (255 ^^^ LCD_DISPLAYON)) % 256
    let s := { s with drv := { s.drv with displayControl := dc1 } }
    match andThen (transmit s SPECIAL_COMMAND) (fun s =>
          andThen (transmit s (LCD_DISPLAYCONTROL ||| dc1)) (fun s =>
            andThen (transmit s SETTING_COMMAND) (fun s =>
              andThen (transmit s red) (fun s =>
                andThen (transmit s SETTING_COMMAND) (fun s =>
                  andThen (transmit s green) (fun s =>
                    andThen (transmit s SETTING_COMMAND) (fun s =>
                      transmit s blue))))))) with
    | (some true, s) =>
      let dc2 := (s.drv.displayControl ||| LCD_DISPLAYON) % 256
      let s := { s with drv := { s.drv with displayControl := dc2 } }
      finish 50 <| andThen (transmit s SPECIAL_COMMAND) (fun s =>
        andThen (transmit s (LCD_DISPLAYCONTROL ||| dc2)) endTransmission)
    | other => other
  | other => other

/-- `SerLCD::setBacklight(unsigned long)`: unpack `0x00RRGGBB`. -/
def setBacklight24 (s : Sys) (rgb : Nat) : Option Bool × Sys :=
  setBacklightRGB s ((rgb >>> 16) &&& 0xFF) ((rgb >>> 8) &&& 0xFF) (rgb &&& 0xFF)

/-- `SerLCD::setFastBacklight(byte, byte, byte)`: marker, RGB-set
command, three raw bytes, one frame, 10-unit settle. -/
def setFastBacklight (s : Sys) (r g b : Nat) : Option Bool × Sys :=
  finish 10 <| andThen (beginTransmission s) (fun s =>
    andThen (transmit s SETTING_COMMAND) (fun s =>
      andThen (transmit s SET_RGB_COMMAND) (fun s =>
        andThen (transmit s r) (fun s =>
          andThen (transmit s g) (fun s =>
            andThen (transmit s b) endTransmission)))))

/-- `SerLCD::setFastBacklight(unsigned long)`: unpack `0x00RRGGBB`. -/
def setFastBacklight24 (s : Sys) (rgb : Nat) : Option Bool × Sys :=
  setFastBacklight s ((rgb >>> 16) &&& 0xFF) ((rgb >>> 8) &&& 0xFF) (rgb &&& 0xFF)

/-- `SerLCD::leftToRight`. -/
def leftToRight (s : Sys) : Option Bool × Sys :=
  let dm := (s.drv.displayMode ||| LCD_ENTRYLEFT) % 256
  let s := { s with drv := { s.drv with displayMode := dm } }
  specialCommand s (LCD_ENTRYMODESET ||| dm)

/-- `SerLCD::rightToLeft`. -/
def rightToLeft (s : Sys) : Option Bool × Sys :=
  let dm := (s.drv.displayMode &&& (255 ^^^ LCD_ENTRYLEFT)) % 256
  let s := { s with drv := { s.drv with displayMode := dm } }
  specialCommand s (LCD_ENTRYMODESET ||| dm)

/-- `SerLCD::autoscroll`. -/
def autoscroll (s : Sys) : Option Bool × Sys :=
  let dm := (s.drv.displayMode ||| LCD_ENTRYSHIFTINCREMENT) % 256
  let s := { s with drv := { s.drv with displayMode := dm } }
  specialCommand s (LCD_ENTRYMODESET ||| dm)

/-- `SerLCD::noAutoscroll`. -/
def noAutoscroll (s : Sys) : Option Bool × Sys :=
  let dm := (s.drv.displayMode &&& (255 ^^^ LCD_ENTRYSHIFTINCREMENT)) % 256
  let s := { s with drv := { s.drv with displayMode := dm } }
  specialCommand s (LCD_ENTRYMODESET ||| dm)

/-- `SerLCD::setContrast(new_val)`. -/
def setContrast (s : Sys) (new_val : Nat) : Option Bool × Sys :=
  finish 10 <| andThen (beginTransmission s) (fun s =>
    andThen (transmit s SETTING_COMMAND) (fun s =>
      andThen (transmit s CONTRAST_COMMAND) (fun s =>
        andThen (transmit s new_val) endTransmission)))

/-- `SerLCD::setAddress(new_addr)`: setting marker, selector `0x19`,
the new address, all in one frame; only on full success is the shadow
`_i2cAddr` updated (then a 50-unit settle). -/
def setAddress (s : Sys) (new_addr : Nat) : Option Bool × Sys :=
  match andThen (beginTransmission s) (fun s =>
        andThen (transmit s SETTING_COMMAND) (fun s =>
          andThen (transmit s ADDRESS_COMMAND) (fun s =>
            andThen (transmit s new_addr) endTransmission))) with
  | (some true, s) =>
    (some true,
      delay { s with drv := { s.drv with i2cAddr := new_addr % 256 } } 50)
  | other => other

/-! ### Session construction and helper oracles -/

/-- State after the `SerLCD()` constructor and a transport bind, before
`init` runs: default shadow masks
`LCD_DISPLAYON | LCD_CURSOROFF | LCD_BLINKOFF` and
`LCD_ENTRYLEFT | LCD_ENTRYSHIFTDECREMENT`. -/
def initialSys (p : Port) (addr : Nat) : Sys :=
  { drv := { port := p, i2cAddr := addr % 256,
             displayControl := LCD_DISPLAYON ||| LCD_CURSOROFF ||| LCD_BLINKOFF,
             displayMode := LCD_ENTRYLEFT ||| LCD_ENTRYSHIFTDECREMENT },
    step := 0, trace := [] }

/-- An I2C transport that always reports `I2C_STATUS_OK`. -/
def okAll : Nat → Bool := fun _ => true

/-- An I2C transport whose first `k` primitive calls succeed and whose
k-th call (0-based) fails. -/
def okUpTo (k : Nat) : Nat → Bool := fun n => decide (n < k)

/-- A fresh I2C session with the given oracle, address and shadow
masks (all byte-truncated), no calls consumed, empty trace. -/
def mkI2C (ok : Nat → Bool) (a dc dm : Nat) : Sys :=
  { drv := { port := .i2c ok, i2cAddr := a % 256,
             displayControl := dc % 256, displayMode := dm % 256 },
    step := 0, trace := [] }

/-- A fresh serial (byte-stream) session. -/
def mkSerial (a dc dm : Nat) : Sys :=
  { drv := { port := .serialPt, i2cAddr := a % 256,
             displayControl := dc % 256, displayMode := dm % 256 },
    step := 0, trace := [] }

/-- The bytes recorded as successfully sent in a trace. -/
def sentBytes : List Ev → List Nat
  | [] => []
  | .send b :: rest => b :: sentBytes rest
  | _ :: rest => sentBytes rest

/-- The `n` marker+command event pairs emitted by a successful
`transmitPairs` run. -/
def pairEvs (cmd : Nat) : Nat → List Ev
  | 0 => []
  | n + 1 => [.send (SPECIAL_COMMAND % 256), .send (cmd % 256)] ++ pairEvs cmd n

/-- States reachable from construction (any transport bind, any
address override) by any sequence of public operations. -/
inductive Reaches : Sys → Prop where
  | base (p : Port) (a : Nat) : Reaches (initialSys p a)
  | stepInit (s : Sys) : Reaches s → Reaches (init s).2
  | stepClear (s : Sys) : Reaches s → Reaches (clear s).2
  | stepHome (s : Sys) : Reaches s → Reaches (home s).2
  | stepSetCursor (s : Sys) (col row : Nat) :
      Reaches s → Reaches (setCursor s col row).2
  | stepCreateChar (s : Sys) (loc : Nat) (cm : List Nat) :
      Reaches s → Reaches (createChar s loc cm).2
  | stepWriteChar (s : Sys) (loc : Nat) :
      Reaches s → Reaches (writeChar s loc).2
  | stepWriteByte (s : Sys) (b : Nat) : Reaches s → Reaches (writeByte s b)
  | stepWriteBuffer (s : Sys) (buf : List Nat) :
      Reaches s → Reaches (writeBuffer s buf)
  | stepWriteStr (s : Sys) (str : Option (List Nat)) :
      Reaches s → Reaches (writeStr s str)
  | stepNoDisplay (s : Sys) : Reaches s → Reaches (noDisplay s).2
  | stepDisplay (s : Sys) : Reaches s → Reaches (display s).2
  | stepNoCursor (s : Sys) : Reaches s → Reaches (noCursor s).2
  | stepCursor (s : Sys) : Reaches s → Reaches (cursor s).2
  | stepNoBlink (s : Sys) : Reaches s → Reaches (noBlink s).2
  | stepBlink (s : Sys) : Reaches s → Reaches (blink s).2
  | stepScrollDisplayLeft (s : Sys) : Reaches s → Reaches (scrollDisplayLeft s).2
  | stepScrollDisplayLeftN (s : Sys) (n : Nat) :
      Reaches s → Reaches (scrollDisplayLeftN s n).2
  | stepScrollDisplayRight (s : Sys) :
      Reaches s → Reaches (scrollDisplayRight s).2
  | stepScrollDisplayRightN (s : Sys) (n : Nat) :
      Reaches s → Reaches (scrollDisplayRightN s n).2
  | stepMoveCursorLeft (s : Sys) : Reaches s → Reaches (moveCursorLeft s).2
  | stepMoveCursorLeftN (s : Sys) (n : Nat) :
      Reaches s → Reaches (moveCursorLeftN s n).2
  | stepMoveCursorRight (s : Sys) : Reaches s → Reaches (moveCursorRight s).2
  | stepMoveCursorRightN (s : Sys) (n : Nat) :
      Reaches s → Reaches (moveCursorRightN s n).2
  | stepSetBacklightRGB (s : Sys) (r g b : Nat) :
      Reaches s → Reaches (setBacklightRGB s r g b).2
  | stepSetBacklight24 (s : Sys) (rgb : Nat) :
      Reaches s → Reaches (setBacklight24 s rgb).2
  | stepSetFastBacklight (s : Sys) (r g b : Nat) :
      Reaches s → Reaches (setFastBacklight s r g b).2
  | stepSetFastBacklight24 (s : Sys) (rgb : Nat) :
      Reaches s → Reaches (setFastBacklight24 s rgb).2
  | stepLeftToRight (s : Sys) : Reaches s → Reaches (leftToRight s).2
  | stepRightToLeft (s : Sys) : Reaches s → Reaches (rightToLeft s).2
  | stepAutoscroll (s : Sys) : Reaches s → Reaches (autoscroll s).2
  | stepNoAutoscroll (s : Sys) : Reaches s → Reaches (noAutoscroll s).2
  | stepSetContrast (s : Sys) (v : Nat) : Reaches s → Reaches (setContrast s v).2
  | stepSetAddress (s : Sys) (na : Nat) : Reaches s → Reaches (setAddress s na).2
  | stepCommand (s : Sys) (c : Nat) : Reaches s → Reaches (command s c).2
  | stepSpecialCommand (s : Sys) (c : Nat) :
      Reaches s → Reaches (specialCommand s c).2
  | stepSpecialCommandCount (s : Sys) (c n : Nat) :
      Reaches s → Reaches (specialCommandCount s c n).2

end SerLCD

namespace SerLCD

/-! ### Helper lemmas: the transport primitives never touch the driver
fields, and the command framer chains preserve them -/

theorem beginTransmission_drv (s : Sys) : (beginTransmission s).2.drv = s.drv := by
  rcases s with ⟨⟨p, a, dc, dm⟩, st, tr⟩
  cases p
  · dsimp [beginTransmission]; split <;> rfl
  · rfl
  · rfl

theorem transmit_drv (s : Sys) (b : Nat) : (transmit s b).2.drv = s.drv := by
  rcases s with ⟨⟨p, a, dc, dm⟩, st, tr⟩
  cases p
  · dsimp [transmit]; split <;> rfl
  · rfl
  · rfl

theorem endTransmission_drv (s : Sys) : (endTransmission s).2.drv = s.drv := by
  rcases s with ⟨⟨p, a, dc, dm⟩, st, tr⟩
  cases p
  · dsimp [endTransmission]; split <;> rfl
  · rfl
  · rfl

theorem delay_drv (s : Sys) (n : Nat) : (delay s n).drv = s.drv := rfl

theorem finish_drv (n : Nat) (r : Option Bool × Sys) :
    (finish n r).2.drv = r.2.drv := by
  rcases r with ⟨rb, s⟩
  rcases rb with _ | b
  · rfl
  · cases b <;> rfl

theorem andThen_drv (r : Option Bool × Sys) (k : Sys → Option Bool × Sys)
    (h : ∀ s, ((k s).2).drv = s.drv) : ((andThen r k).2).drv = r.2.drv := by
  rcases r with ⟨rb, s⟩
  rcases rb with _ | b
  · rfl
  · cases b
    · rfl
    · exact h s

theorem seqTransmit_drv (l : List Nat) :
    ∀ s : Sys, (seqTransmit s l).2.drv = s.drv := by
  induction l with
  | nil => intro s; rfl
  | cons b rest ih =>
    intro s
    rw [seqTransmit, andThen_drv _ _ (fun s => ih s), transmit_drv]

theorem transmitPairs_drv (cmd : Nat) :
    ∀ (n : Nat) (s : Sys), (transmitPairs s cmd n).2.drv = s.drv := by
  intro n
  induction n with
  | zero => intro s; rfl
  | succ n ih =>
    intro s
    rw [transmitPairs,
      andThen_drv _ _ (fun s =>
        (andThen_drv _ _ (fun s => ih s)).trans (transmit_drv s cmd)),
      transmit_drv]

theorem command_drv (s : Sys) (c : Nat) : (command s c).2.drv = s.drv := by
  rw [command, finish_drv,
    andThen_drv _ _ (fun s =>
      ((andThen_drv _ _ (fun s =>
          (andThen_drv _ _ (fun s => endTransmission_drv s)).trans
            (transmit_drv s c))).trans (transmit_drv s SETTING_COMMAND))),
    beginTransmission_drv]

theorem specialCommand_drv (s : Sys) (c : Nat) :
    (specialCommand s c).2.drv = s.drv := by
  rw [specialCommand, finish_drv,
    andThen_drv _ _ (fun s =>
      ((andThen_drv _ _ (fun s =>
          (andThen_drv _ _ (fun s => endTransmission_drv s)).trans
            (transmit_drv s c))).trans (transmit_drv s SPECIAL_COMMAND))),
    beginTransmission_drv]

theorem specialCommandCount_drv (s : Sys) (c n : Nat) :
    (specialCommandCount s c n).2.drv = s.drv := by
  rw [specialCommandCount, finish_drv,
    andThen_drv _ _ (fun s =>
      (andThen_drv _ _ (fun s => endTransmission_drv s)).trans
        (transmitPairs_drv c (n % 256) s)),
    beginTransmission_drv]

end SerLCD

namespace SerLCD

/-! ### Evaluation under an always-OK I2C transport -/

theorem beginTransmission_okAll (d : Drv) (st : Nat) (tr : List Ev)
    (hp : d.port = .i2c okAll) :
    beginTransmission ⟨d, st, tr⟩ =
      (some true, ⟨d, st + 1, tr ++ [.openF d.i2cAddr]⟩) := by
  simp [beginTransmission, hp, okAll]

theorem transmit_okAll (d : Drv) (st : Nat) (tr : List Ev) (b : Nat)
    (hp : d.port = .i2c okAll) :
    transmit ⟨d, st, tr⟩ b = (some true, ⟨d, st + 1, tr ++ [.send (b % 256)]⟩) := by
  simp [transmit, hp, okAll]

theorem endTransmission_okAll (d : Drv) (st : Nat) (tr : List Ev)
    (hp : d.port = .i2c okAll) :
    endTransmission ⟨d, st, tr⟩ = (some true, ⟨d, st + 1, tr ++ [.closeF]⟩) := by
  simp [endTransmission, hp, okAll]

theorem transmitPairs_okAll (cmd : Nat) :
    ∀ (n : Nat) (d : Drv) (st : Nat) (tr : List Ev), d.port = .i2c okAll →
      transmitPairs ⟨d, st, tr⟩ cmd n =
        (some true, ⟨d, st + 2 * n, tr ++ pairEvs cmd n⟩) := by
  intro n
  induction n with
  | zero => intro d st tr _; simp [transmitPairs, pairEvs]
  | succ n ih =>
    intro d st tr hp
    rw [transmitPairs, transmit_okAll d st tr SPECIAL_COMMAND hp]
    rw [show andThen (some true, (⟨d, st + 1, tr ++ [.send (SPECIAL_COMMAND % 256)]⟩ : Sys))
          (fun s => andThen (transmit s cmd) (fun s => transmitPairs s cmd n)) =
        andThen (transmit (⟨d, st + 1, tr ++ [.send (SPECIAL_COMMAND % 256)]⟩ : Sys) cmd)
          (fun s => transmitPairs s cmd n) from rfl]
    rw [transmit_okAll _ _ _ _ hp]
    rw [show andThen (some true,
            (⟨d, st + 1 + 1, tr ++ [.send (SPECIAL_COMMAND % 256)] ++ [.send (cmd % 256)]⟩ : Sys))
          (fun s => transmitPairs s cmd n) =
        transmitPairs
          (⟨d, st + 1 + 1, tr ++ [.send (SPECIAL_COMMAND % 256)] ++ [.send (cmd % 256)]⟩ : Sys)
          cmd n from rfl]
    rw [ih _ _ _ hp]
    simp [pairEvs, List.append_assoc]
    omega

end SerLCD

namespace SerLCD

/-! ### Byte-level bitmask facts, checked exhaustively over a byte -/

set_option maxRecDepth 8192 in
theorem mask_restore_facts : ∀ x : Nat, x < 256 →
    (x &&& 4 = 0 → (((x ||| 4) % 256) &&& 251) % 256 = x) ∧
    (x &&& 4 = 4 → (((x &&& 251) % 256) ||| 4) % 256 = x) ∧
    (x &&& 2 = 0 → (((x ||| 2) % 256) &&& 253) % 256 = x) ∧
    (x &&& 2 = 2 → (((x &&& 253) % 256) ||| 2) % 256 = x) ∧
    (x &&& 1 = 0 → (((x ||| 1) % 256) &&& 254) % 256 = x) ∧
    (x &&& 1 = 1 → (((x &&& 254) % 256) ||| 1) % 256 = x) := by decide

set_option maxRecDepth 8192 in
theorem dc_small_facts : ∀ x : Nat, x < 8 →
    ((x ||| 4) % 256 < 8) ∧ ((x ||| 2) % 256 < 8) ∧ ((x ||| 1) % 256 < 8) ∧
    ((x &&& 251) % 256 < 8) ∧ ((x &&& 253) % 256 < 8) ∧ ((x &&& 254) % 256 < 8) ∧
    (((x &&& 251) % 256 ||| 4) % 256 < 8) ∧ (x &&& 248 = 0) := by decide

set_option maxRecDepth 8192 in
theorem dm_small_facts : ∀ x : Nat, x < 4 →
    ((x ||| 2) % 256 < 4) ∧ ((x ||| 1) % 256 < 4) ∧
    ((x &&& 253) % 256 < 4) ∧ ((x &&& 254) % 256 < 4) ∧
    (x &&& 252 = 0) := by decide

set_option maxRecDepth 8192 in
theorem or128_small : ∀ v : Nat, v < 128 → (128 ||| v) % 256 = 128 ||| v := by decide

end SerLCD

namespace SerLCD

/-! ### Per-operation effect on the driver fields -/

theorem writeByte_drv (s : Sys) (b : Nat) : (writeByte s b).drv = s.drv := by
  rw [writeByte, delay_drv, endTransmission_drv, transmit_drv, beginTransmission_drv]

theorem foldl_transmit_drv (buf : List Nat) :
    ∀ s : Sys, (buf.foldl (fun s b => (transmit s b).2) s).drv = s.drv := by
  induction buf with
  | nil => intro s; rfl
  | cons b rest ih => intro s; rw [List.foldl_cons, ih, transmit_drv]

theorem writeBuffer_drv (s : Sys) (buf : List Nat) :
    (writeBuffer s buf).drv = s.drv := by
  rw [writeBuffer, delay_drv, endTransmission_drv, foldl_transmit_drv,
    beginTransmission_drv]

theorem writeStr_drv (s : Sys) (str : Option (List Nat)) :
    (writeStr s str).drv = s.drv := by
  cases str
  · rfl
  · exact writeBuffer_drv s _

theorem clear_drv (s : Sys) : (clear s).2.drv = s.drv := by
  rw [clear, finish_drv, command_drv]

theorem home_drv (s : Sys) : (home s).2.drv = s.drv := specialCommand_drv s _

theorem setCursor_drv (s : Sys) (col row : Nat) :
    (setCursor s col row).2.drv = s.drv := specialCommand_drv s _

theorem writeChar_drv (s : Sys) (loc : Nat) :
    (writeChar s loc).2.drv = s.drv := command_drv s _

theorem init_drv (s : Sys) : (init s).2.drv = s.drv := by
  rw [init, finish_drv, andThen_drv, beginTransmission_drv]
  intro s
  rw [andThen_drv, transmit_drv]
  intro s
  rw [andThen_drv, transmit_drv]
  intro s
  rw [andThen_drv, transmit_drv]
  intro s
  rw [andThen_drv, transmit_drv]
  intro s
  rw [andThen_drv, transmit_drv]
  intro s
  rw [andThen_drv, transmit_drv]
  exact fun s => endTransmission_drv s

theorem createChar_drv (s : Sys) (loc : Nat) (cm : List Nat) :
    (createChar s loc cm).2.drv = s.drv := by
  rw [createChar, finish_drv, andThen_drv, beginTransmission_drv]
  intro s
  rw [andThen_drv, transmit_drv]
  intro s
  rw [andThen_drv, transmit_drv]
  intro s
  rw [andThen_drv, seqTransmit_drv]
  exact fun s => endTransmission_drv s

theorem setFastBacklight_drv (s : Sys) (r g b : Nat) :
    (setFastBacklight s r g b).2.drv = s.drv := by
  rw [setFastBacklight, finish_drv, andThen_drv, beginTransmission_drv]
  intro s
  rw [andThen_drv, transmit_drv]
  intro s
  rw [andThen_drv, transmit_drv]
  intro s
  rw [andThen_drv, transmit_drv]
  intro s
  rw [andThen_drv, transmit_drv]
  intro s
  rw [andThen_drv, transmit_drv]
  exact fun s => endTransmission_drv s

theorem setFastBacklight24_drv (s : Sys) (rgb : Nat) :
    (setFastBacklight24 s rgb).2.drv = s.drv := setFastBacklight_drv s _ _ _

theorem setContrast_drv (s : Sys) (v : Nat) : (setContrast s v).2.drv = s.drv := by
  rw [setContrast, finish_drv, andThen_drv, beginTransmission_drv]
  intro s
  rw [andThen_drv, transmit_drv]
  intro s
  rw [andThen_drv, transmit_drv]
  intro s
  rw [andThen_drv, transmit_drv]
  exact fun s => endTransmission_drv s

end SerLCD

namespace SerLCD

theorem noDisplay_drv (s : Sys) : (noDisplay s).2.drv =
    { s.drv with displayControl :=
        (s.drv.displayControl &&& (255 ^^^ LCD_DISPLAYON)) % 256 } := by
  rw [noDisplay]; exact specialCommand_drv _ _

theorem display_drv (s : Sys) : (display s).2.drv =
    { s.drv with displayControl := (s.drv.displayControl ||| LCD_DISPLAYON) % 256 } := by
  rw [display]; exact specialCommand_drv _ _

theorem noCursor_drv (s : Sys) : (noCursor s).2.drv =
    { s.drv with displayControl :=
        (s.drv.displayControl &&& (255 ^^^ LCD_CURSORON)) % 256 } := by
  rw [noCursor]; exact specialCommand_drv _ _

theorem cursor_drv (s : Sys) : (cursor s).2.drv =
    { s.drv with displayControl := (s.drv.displayControl ||| LCD_CURSORON) % 256 } := by
  rw [cursor]; exact specialCommand_drv _ _

theorem noBlink_drv (s : Sys) : (noBlink s).2.drv =
    { s.drv with displayControl :=
        (s.drv.displayControl &&& (255 ^^^ LCD_BLINKON)) % 256 } := by
  rw [noBlink]; exact specialCommand_drv _ _

theorem blink_drv (s : Sys) : (blink s).2.drv =
    { s.drv with displayControl := (s.drv.displayControl ||| LCD_BLINKON) % 256 } := by
  rw [blink]; exact specialCommand_drv _ _

theorem leftToRight_drv (s : Sys) : (leftToRight s).2.drv =
    { s.drv with displayMode := (s.drv.displayMode ||| LCD_ENTRYLEFT) % 256 } := by
  rw [leftToRight]; exact specialCommand_drv _ _

theorem rightToLeft_drv (s : Sys) : (rightToLeft s).2.drv =
    { s.drv with displayMode :=
        (s.drv.displayMode &&& (255 ^^^ LCD_ENTRYLEFT)) % 256 } := by
  rw [rightToLeft]; exact specialCommand_drv _ _

theorem autoscroll_drv (s : Sys) : (autoscroll s).2.drv =
    { s.drv with displayMode :=
        (s.drv.displayMode ||| LCD_ENTRYSHIFTINCREMENT) % 256 } := by
  rw [autoscroll]; exact specialCommand_drv _ _

theorem noAutoscroll_drv (s : Sys) : (noAutoscroll s).2.drv =
    { s.drv with displayMode :=
        (s.drv.displayMode &&& (255 ^^^ LCD_ENTRYSHIFTINCREMENT)) % 256 } := by
  rw [noAutoscroll]; exact specialCommand_drv _ _

theorem setAddress_dcdm (s : Sys) (na : Nat) :
    (setAddress s na).2.drv.displayControl = s.drv.displayControl ∧
    (setAddress s na).2.drv.displayMode = s.drv.displayMode := by
  have hch : (andThen (beginTransmission s) (fun s =>
      andThen (transmit s SETTING_COMMAND) (fun s =>
        andThen (transmit s ADDRESS_COMMAND) (fun s =>
          andThen (transmit s na) endTransmission)))).2.drv = s.drv := by
    rw [andThen_drv, beginTransmission_drv]
    intro s
    rw [andThen_drv, transmit_drv]
    intro s
    rw [andThen_drv, transmit_drv]
    intro s
    rw [andThen_drv, transmit_drv]
    exact fun s => endTransmission_drv s
  rw [setAddress]
  split
  next s' heq =>
    rw [heq] at hch
    have hd : s'.drv = s.drv := hch
    simp only [delay]
    rw [hd]
    exact ⟨rfl, rfl⟩
  next heq =>
    rw [hch]
    exact ⟨rfl, rfl⟩

end SerLCD

namespace SerLCD

end SerLCD

namespace SerLCD

theorem blChainA_drv (s : Sys) (c red green blue : Nat) :
    (andThen (transmit s SPECIAL_COMMAND) fun s =>
      andThen (transmit s c) fun s =>
        andThen (transmit s SETTING_COMMAND) fun s =>
          andThen (transmit s red) fun s =>
            andThen (transmit s SETTING_COMMAND) fun s =>
              andThen (transmit s green) fun s =>
                andThen (transmit s SETTING_COMMAND) fun s =>
                  transmit s blue).2.drv = s.drv := by
  rw [andThen_drv, transmit_drv]
  intro s
  rw [andThen_drv, transmit_drv]
  intro s
  rw [andThen_drv, transmit_drv]
  intro s
  rw [andThen_drv, transmit_drv]
  intro s
  rw [andThen_drv, transmit_drv]
  intro s
  rw [andThen_drv, transmit_drv]
  intro s
  rw [andThen_drv, transmit_drv]
  exact fun s => transmit_drv s blue

theorem blChainB_drv (s : Sys) (c : Nat) :
    (finish 50 (andThen (transmit s SPECIAL_COMMAND) fun s =>
      andThen (transmit s c) endTransmission)).2.drv = s.drv := by
  rw [finish_drv, andThen_drv, transmit_drv]
  exact fun s => by rw [andThen_drv, transmit_drv]; exact fun s => endTransmission_drv s

theorem setBacklightRGB_dcdm (s : Sys) (r g b : Nat) :
    ((setBacklightRGB s r g b).2.drv.displayControl = s.drv.displayControl ∨
     (setBacklightRGB s r g b).2.drv.displayControl =
       (s.drv.displayControl &&& (255 ^^^ LCD_DISPLAYON)) % 256 ∨
     (setBacklightRGB s r g b).2.drv.displayControl =
       (((s.drv.displayControl &&& (255 ^^^ LCD_DISPLAYON)) % 256) |||
           LCD_DISPLAYON) % 256) ∧
    (setBacklightRGB s r g b).2.drv.displayMode = s.drv.displayMode := by
  rw [setBacklightRGB]
  split
  next sb heq =>
    have hb : sb.drv = s.drv := by
      have h := beginTransmission_drv s
      rw [heq] at h
      exact h
    try dsimp only
    split
    next s2 heq2 =>
      have hkey :=
        (blChainA_drv _ _ _ _ _).symm.trans
          (congrArg (fun p : Option Bool × Sys => p.2.drv) heq2)
      try dsimp only
      rw [blChainB_drv]
      try dsimp only at hkey
      refine ⟨Or.inr (Or.inr ?_), ?_⟩
      · simp only [← hkey, ← hb]
      · simp only [← hkey, ← hb]
    next heq2 =>
      rw [blChainA_drv]
      try dsimp only
      refine ⟨Or.inr (Or.inl ?_), ?_⟩
      · simp only [← hb]
      · simp only [← hb]
  next heq =>
    rw [beginTransmission_drv]
    exact ⟨Or.inl rfl, rfl⟩

end SerLCD

namespace SerLCD

theorem reaches_masks_small (s : Sys) (h : Reaches s) :
    s.drv.displayControl < 8 ∧ s.drv.displayMode < 4 := by
  induction h with
  | base p a =>
    constructor
    · show LCD_DISPLAYON ||| LCD_CURSOROFF ||| LCD_BLINKOFF < 8
      decide
    · show LCD_ENTRYLEFT ||| LCD_ENTRYSHIFTDECREMENT < 4
      decide
  | stepInit s _ ih => rw [init_drv]; exact ih
  | stepClear s _ ih => rw [clear_drv]; exact ih
  | stepHome s _ ih => rw [home_drv]; exact ih
  | stepSetCursor s col row _ ih => rw [setCursor_drv]; exact ih
  | stepCreateChar s loc cm _ ih => rw [createChar_drv]; exact ih
  | stepWriteChar s loc _ ih => rw [writeChar_drv]; exact ih
  | stepWriteByte s b _ ih => rw [writeByte_drv]; exact ih
  | stepWriteBuffer s buf _ ih => rw [writeBuffer_drv]; exact ih
  | stepWriteStr s str _ ih => rw [writeStr_drv]; exact ih
  | stepNoDisplay s _ ih =>
    rw [noDisplay_drv]
    exact ⟨(dc_small_facts _ ih.1).2.2.2.1, ih.2⟩
  | stepDisplay s _ ih =>
    rw [display_drv]
    exact ⟨(dc_small_facts _ ih.1).1, ih.2⟩
  | stepNoCursor s _ ih =>
    rw [noCursor_drv]
    exact ⟨(dc_small_facts _ ih.1).2.2.2.2.1, ih.2⟩
  | stepCursor s _ ih =>
    rw [cursor_drv]
    exact ⟨(dc_small_facts _ ih.1).2.1, ih.2⟩
  | stepNoBlink s _ ih =>
    rw [noBlink_drv]
    exact ⟨(dc_small_facts _ ih.1).2.2.2.2.2.1, ih.2⟩
  | stepBlink s _ ih =>
    rw [blink_drv]
    exact ⟨(dc_small_facts _ ih.1).2.2.1, ih.2⟩
  | stepScrollDisplayLeft s _ ih => rw [scrollDisplayLeft, specialCommand_drv]; exact ih
  | stepScrollDisplayLeftN s n _ ih =>
    rw [scrollDisplayLeftN, specialCommandCount_drv]; exact ih
  | stepScrollDisplayRight s _ ih => rw [scrollDisplayRight, specialCommand_drv]; exact ih
  | stepScrollDisplayRightN s n _ ih =>
    rw [scrollDisplayRightN, specialCommandCount_drv]; exact ih
  | stepMoveCursorLeft s _ ih => rw [moveCursorLeft, specialCommand_drv]; exact ih
  | stepMoveCursorLeftN s n _ ih =>
    rw [moveCursorLeftN, specialCommandCount_drv]; exact ih
  | stepMoveCursorRight s _ ih => rw [moveCursorRight, specialCommand_drv]; exact ih
  | stepMoveCursorRightN s n _ ih =>
    rw [moveCursorRightN, specialCommandCount_drv]; exact ih
  | stepSetBacklightRGB s r g b _ ih =>
    have h := setBacklightRGB_dcdm s r g b
    refine ⟨?_, h.2 ▸ ih.2⟩
    rcases h.1 with h1 | h1 | h1 <;> rw [h1]
    · exact ih.1
    · exact (dc_small_facts _ ih.1).2.2.2.1
    · exact (dc_small_facts _ ih.1).2.2.2.2.2.2.1
  | stepSetBacklight24 s rgb _ ih =>
    rw [setBacklight24]
    have h := setBacklightRGB_dcdm s ((rgb >>> 16) &&& 0xFF) ((rgb >>> 8) &&& 0xFF)
      (rgb &&& 0xFF)
    refine ⟨?_, h.2 ▸ ih.2⟩
    rcases h.1 with h1 | h1 | h1 <;> rw [h1]
    · exact ih.1
    · exact (dc_small_facts _ ih.1).2.2.2.1
    · exact (dc_small_facts _ ih.1).2.2.2.2.2.2.1
  | stepSetFastBacklight s r g b _ ih => rw [setFastBacklight_drv]; exact ih
  | stepSetFastBacklight24 s rgb _ ih => rw [setFastBacklight24_drv]; exact ih
  | stepLeftToRight s _ ih =>
    rw [leftToRight_drv]
    exact ⟨ih.1, (dm_small_facts _ ih.2).1⟩
  | stepRightToLeft s _ ih =>
    rw [rightToLeft_drv]
    exact ⟨ih.1, (dm_small_facts _ ih.2).2.2.1⟩
  | stepAutoscroll s _ ih =>
    rw [autoscroll_drv]
    exact ⟨ih.1, (dm_small_facts _ ih.2).2.1⟩
  | stepNoAutoscroll s _ ih =>
    rw [noAutoscroll_drv]
    exact ⟨ih.1, (dm_small_facts _ ih.2).2.2.2.1⟩
  | stepSetContrast s v _ ih => rw [setContrast_drv]; exact ih
  | stepSetAddress s na _ ih =>
    have h := setAddress_dcdm s na
    exact ⟨h.1 ▸ ih.1, h.2 ▸ ih.2⟩
  | stepCommand s c _ ih => rw [command_drv]; exact ih
  | stepSpecialCommand s c _ ih => rw [specialCommand_drv]; exact ih
  | stepSpecialCommandCount s c n _ ih => rw [specialCommandCount_drv]; exact ih

end SerLCD

namespace SerLCD

theorem pairEvs_length (cmd : Nat) : ∀ n, (pairEvs cmd n).length = 2 * n := by
  intro n
  induction n with
  | zero => rfl
  | succ n ih => simp [pairEvs, ih]; omega

/-- C2: with the serial (byte-stream) transport active, `transmit`
does write the byte and return `true`, but `beginTransmission` and
`endTransmission` do **not** return `true`: the C++ functions have no
return statement on the serial path, so control falls off the end of a
non-void function (undefined behaviour), modelled as `none`.  This
contradicts the claim (and the code's own comment, which says the
serial path should do nothing, i.e. succeed). -/
theorem serialTransportPrimitives (a dc dm b : Nat) :
    (beginTransmission (mkSerial a dc dm)).1 = none ∧
    (endTransmission (mkSerial a dc dm)).1 = none ∧
    (transmit (mkSerial a dc dm) b).1 = some true ∧
    (transmit (mkSerial a dc dm) b).2.trace = [.send (b % 256)] :=
  ⟨rfl, rfl, rfl, rfl⟩

/-- C7: the slow-form backlight range mapping sends input 0 to the
channel base (red 128, green 158, blue 188), input 255 to the channel
top (red 157, green 187, blue 217), and is monotone non-decreasing on
the byte input range. -/
theorem backlightChannelMapping :
    redVal 0 = 128 ∧ redVal 255 = 157 ∧
    greenVal 0 = 158 ∧ greenVal 255 = 187 ∧
    blueVal 0 = 188 ∧ blueVal 255 = 217 ∧
    (∀ x y, x ≤ y → y ≤ 255 → redVal x ≤ redVal y) ∧
    (∀ x y, x ≤ y → y ≤ 255 → greenVal x ≤ greenVal y) ∧
    (∀ x y, x ≤ y → y ≤ 255 → blueVal x ≤ blueVal y) := by
  refine ⟨by decide, by decide, by decide, by decide, by decide, by decide,
    ?_, ?_, ?_⟩ <;>
  · intro x y hxy hy
    have hx2 : x % 256 = x := Nat.mod_eq_of_lt (by omega)
    have hy2 : y % 256 = y := Nat.mod_eq_of_lt (by omega)
    simp [redVal, greenVal, blueVal, arduinoMap, hx2, hy2]
    gcongr

/-- C7 witness. -/
theorem backlightChannelMapping_witness : redVal 0 ≤ redVal 255 :=
  backlightChannelMapping.2.2.2.2.2.2.1 0 255 (by decide) (by decide)

/-- C5: `setCursor` clamps the row into `[0, 3]` before the table
lookup, sends exactly one special command framed as
open / marker / `LCD_SETDDRAMADDR ||| (col + row_offsets[row])` / close
followed by the 50-unit settle, the looked-up offset is always one of
the 4 table entries, and whenever `col + offset` fits a byte's low 7
bits no truncation occurs, so the byte is literally
`0x80 ||| (col + offset)`. -/
theorem setCursorSpec (a dc dm col row : Nat) :
    (setCursor (mkI2C okAll a dc dm) col row).1 = some true ∧
    (setCursor (mkI2C okAll a dc dm) col row).2.trace =
      [.openF (a % 256), .send (SPECIAL_COMMAND % 256),
       .send ((LCD_SETDDRAMADDR |||
         (col % 256 +
           row_offsets.getD (min (max 0 (row % 256)) (MAX_ROWS - 1)) 0)) % 256),
       .closeF, .settle 50] ∧
    min (max 0 (row % 256)) (MAX_ROWS - 1) = min (row % 256) 3 ∧
    min (max 0 (row % 256)) (MAX_ROWS - 1) ≤ 3 ∧
    row_offsets.getD (min (max 0 (row % 256)) (MAX_ROWS - 1)) 0 ∈ row_offsets ∧
    (col % 256 + row_offsets.getD (min (max 0 (row % 256)) (MAX_ROWS - 1)) 0 < 128 →
      (LCD_SETDDRAMADDR |||
          (col % 256 +
            row_offsets.getD (min (max 0 (row % 256)) (MAX_ROWS - 1)) 0)) % 256 =
        LCD_SETDDRAMADDR |||
          (col % 256 +
            row_offsets.getD (min (max 0 (row % 256)) (MAX_ROWS - 1)) 0)) := by
  refine ⟨rfl, rfl, by simp [MAX_ROWS], by simp [MAX_ROWS],
    ?_, fun h => or128_small _ h⟩
  have h3 : min (max 0 (row % 256)) (MAX_ROWS - 1) ≤ 3 := by simp [MAX_ROWS]
  set m := min (max 0 (row % 256)) (MAX_ROWS - 1) with hm
  interval_cases m <;> decide

/-- C5 witness: `setCursor(7, 5)` clamps the row to 3 and the sent
byte is exactly `0x80 ||| (7 + 0x54)`, untruncated. -/
theorem setCursorSpec_witness :
    7 % 256 + row_offsets.getD (min (max 0 (5 % 256)) (MAX_ROWS - 1)) 0 < 128 ∧
    (LCD_SETDDRAMADDR |||
        (7 % 256 + row_offsets.getD (min (max 0 (5 % 256)) (MAX_ROWS - 1)) 0)) % 256 =
      LCD_SETDDRAMADDR |||
        (7 % 256 + row_offsets.getD (min (max 0 (5 % 256)) (MAX_ROWS - 1)) 0) :=
  ⟨by decide, (setCursorSpec 0x72 4 2 7 5).2.2.2.2.2 (by decide)⟩

/-- C9: `createChar(location, charmap)` masks the slot to its low 3
bits (so it is always < 8) and transmits, in one frame, the setting
marker, `27 + slot`, then the 8 glyph bytes in order, with one 50-unit
settle; in particular `createChar(9, ...)` uses slot 1 and selector
byte 28. -/
theorem createCharSpec (a dc dm loc : Nat) (cm : List Nat) :
    (createChar (mkI2C okAll a dc dm) loc cm).1 = some true ∧
    (createChar (mkI2C okAll a dc dm) loc cm).2.trace =
      [.openF (a % 256), .send (SETTING_COMMAND % 256),
       .send ((27 + ((loc % 256) &&& 0x7)) % 256),
       .send (cm.getD 0 0 % 256), .send (cm.getD 1 0 % 256),
       .send (cm.getD 2 0 % 256), .send (cm.getD 3 0 % 256),
       .send (cm.getD 4 0 % 256), .send (cm.getD 5 0 % 256),
       .send (cm.getD 6 0 % 256), .send (cm.getD 7 0 % 256),
       .closeF, .settle 50] ∧
    ((loc % 256) &&& 0x7) < 8 ∧
    (createChar (mkI2C okAll a dc dm) 9 cm).2.trace =
      [.openF (a % 256), .send (SETTING_COMMAND % 256), .send 28,
       .send (cm.getD 0 0 % 256), .send (cm.getD 1 0 % 256),
       .send (cm.getD 2 0 % 256), .send (cm.getD 3 0 % 256),
       .send (cm.getD 4 0 % 256), .send (cm.getD 5 0 % 256),
       .send (cm.getD 6 0 % 256), .send (cm.getD 7 0 % 256),
       .closeF, .settle 50] :=
  ⟨rfl, rfl, Nat.lt_succ_of_le Nat.and_le_right, rfl⟩

end SerLCD

namespace SerLCD

/-- C3: `setAddress(new_addr)` updates the shadow device address to
the (byte-truncated) new address exactly when the whole framed
transmission (open, setting marker, selector `0x19`, value, close)
succeeds; on a reported failure the shadow address is untouched, and
with the I2C transport the result is never undefined.  The last two
conjuncts are the end-to-end scenarios: after a successful
`setAddress(0x71)` the next operation frames against `0x71`, and if
the very first primitive of `setAddress` fails, the next operation
still frames against `0x72`. -/
theorem setAddressShadowGating (ok : Nat → Bool) (a dc dm na : Nat) :
    ((setAddress (mkI2C ok a dc dm) na).1 = some true →
      (setAddress (mkI2C ok a dc dm) na).2.drv.i2cAddr = na % 256) ∧
    ((setAddress (mkI2C ok a dc dm) na).1 = some false →
      (setAddress (mkI2C ok a dc dm) na).2.drv.i2cAddr = a % 256) ∧
    (setAddress (mkI2C ok a dc dm) na).1 ≠ none ∧
    (command (setAddress (mkI2C okAll 0x72 dc dm) 0x71).2 CLEAR_COMMAND).2.trace =
      [.openF 0x72, .send (SETTING_COMMAND % 256), .send (ADDRESS_COMMAND % 256),
       .send (0x71 % 256), .closeF, .settle 50,
       .openF 0x71, .send (SETTING_COMMAND % 256), .send (CLEAR_COMMAND % 256),
       .closeF, .settle 10] ∧
    (command (setAddress (mkI2C (fun n => decide (0 < n)) 0x72 dc dm) 0x71).2
        CLEAR_COMMAND).2.trace =
      [.openF 0x72, .send (SETTING_COMMAND % 256), .send (CLEAR_COMMAND % 256),
       .closeF, .settle 10] := by
  have key :
      ((setAddress (mkI2C ok a dc dm) na).1 = some true ∧
        (setAddress (mkI2C ok a dc dm) na).2.drv.i2cAddr = na % 256) ∨
      ((setAddress (mkI2C ok a dc dm) na).1 = some false ∧
        (setAddress (mkI2C ok a dc dm) na).2.drv.i2cAddr = a % 256) := by
    cases h0 : ok 0 <;> cases h1 : ok 1 <;> cases h2 : ok 2 <;>
      cases h3 : ok 3 <;> cases h4 : ok 4 <;>
      simp [setAddress, andThen, beginTransmission, transmit, endTransmission,
        mkI2C, delay, h0, h1, h2, h3, h4]
  refine ⟨?_, ?_, ?_, rfl, rfl⟩
  · intro h
    rcases key with ⟨h1, h2⟩ | ⟨h1, h2⟩
    · exact h2
    · rw [h] at h1; cases h1
  · intro h
    rcases key with ⟨h1, h2⟩ | ⟨h1, h2⟩
    · rw [h] at h1; cases h1
    · exact h2
  · rcases key with ⟨h1, _⟩ | ⟨h1, _⟩ <;> rw [h1] <;> simp

/-- C3 witness: a concrete successful run updates the shadow address
to `0x71`. -/
theorem setAddressShadowGating_witness :
    (setAddress (mkI2C okAll 0x72 4 2) 0x71).1 = some true ∧
    (setAddress (mkI2C okAll 0x72 4 2) 0x71).2.drv.i2cAddr = 0x71 % 256 :=
  ⟨rfl, (setAddressShadowGating okAll 0x72 4 2 0x71).1 rfl⟩

end SerLCD

namespace SerLCD

/-- C4 counterexample: from the constructor's default shadow state
(`display on, cursor off, blink off`), `noCursor()` immediately
followed by its opposite `cursor()` leaves the shadow mask at 6, not
at its prior value 4 — so an opposite-toggle pair does not always
restore the mask. -/
theorem togglePairNotInvolutive :
    ¬ ((cursor (noCursor (mkI2C okAll DISPLAY_ADDRESS1
          (LCD_DISPLAYON ||| LCD_CURSOROFF ||| LCD_BLINKOFF)
          (LCD_ENTRYLEFT ||| LCD_ENTRYSHIFTDECREMENT))).2).2.drv.displayControl =
        (mkI2C okAll DISPLAY_ADDRESS1
          (LCD_DISPLAYON ||| LCD_CURSOROFF ||| LCD_BLINKOFF)
          (LCD_ENTRYLEFT ||| LCD_ENTRYSHIFTDECREMENT)).drv.displayControl) := by
  decide

/-- C4 (amended): every flag toggle transmits the special-command
byte `base ||| (full updated shadow mask)` — never just the changed
bit — and updates the shadow mask accordingly; an opposite-toggle
pair restores the mask bit-for-bit **provided** the toggled bit's
prior value is the one the second toggle re-establishes (if the bit
already had the first toggle's value, the pair instead leaves it at
the second toggle's value). -/
theorem toggleFullMask (a dc dm : Nat) :
    (sentBytes (display (mkI2C okAll a dc dm)).2.trace =
      [SPECIAL_COMMAND % 256,
       (LCD_DISPLAYCONTROL ||| ((dc % 256 ||| LCD_DISPLAYON) % 256)) % 256] ∧
     (display (mkI2C okAll a dc dm)).2.drv.displayControl =
       (dc % 256 ||| LCD_DISPLAYON) % 256) ∧
    (sentBytes (noDisplay (mkI2C okAll a dc dm)).2.trace =
      [SPECIAL_COMMAND % 256,
       (LCD_DISPLAYCONTROL ||| ((dc % 256 &&& 251) % 256)) % 256] ∧
     (noDisplay (mkI2C okAll a dc dm)).2.drv.displayControl =
       (dc % 256 &&& 251) % 256) ∧
    (sentBytes (cursor (mkI2C okAll a dc dm)).2.trace =
      [SPECIAL_COMMAND % 256,
       (LCD_DISPLAYCONTROL ||| ((dc % 256 ||| LCD_CURSORON) % 256)) % 256] ∧
     (cursor (mkI2C okAll a dc dm)).2.drv.displayControl =
       (dc % 256 ||| LCD_CURSORON) % 256) ∧
    (sentBytes (noCursor (mkI2C okAll a dc dm)).2.trace =
      [SPECIAL_COMMAND % 256,
       (LCD_DISPLAYCONTROL ||| ((dc % 256 &&& 253) % 256)) % 256] ∧
     (noCursor (mkI2C okAll a dc dm)).2.drv.displayControl =
       (dc % 256 &&& 253) % 256) ∧
    (sentBytes (blink (mkI2C okAll a dc dm)).2.trace =
      [SPECIAL_COMMAND % 256,
       (LCD_DISPLAYCONTROL ||| ((dc % 256 ||| LCD_BLINKON) % 256)) % 256] ∧
     (blink (mkI2C okAll a dc dm)).2.drv.displayControl =
       (dc % 256 ||| LCD_BLINKON) % 256) ∧
    (sentBytes (noBlink (mkI2C okAll a dc dm)).2.trace =
      [SPECIAL_COMMAND % 256,
       (LCD_DISPLAYCONTROL ||| ((dc % 256 &&& 254) % 256)) % 256] ∧
     (noBlink (mkI2C okAll a dc dm)).2.drv.displayControl =
       (dc % 256 &&& 254) % 256) ∧
    (sentBytes (leftToRight (mkI2C okAll a dc dm)).2.trace =
      [SPECIAL_COMMAND % 256,
       (LCD_ENTRYMODESET ||| ((dm % 256 ||| LCD_ENTRYLEFT) % 256)) % 256] ∧
     (leftToRight (mkI2C okAll a dc dm)).2.drv.displayMode =
       (dm % 256 ||| LCD_ENTRYLEFT) % 256) ∧
    (sentBytes (rightToLeft (mkI2C okAll a dc dm)).2.trace =
      [SPECIAL_COMMAND % 256,
       (LCD_ENTRYMODESET ||| ((dm % 256 &&& 253) % 256)) % 256] ∧
     (rightToLeft (mkI2C okAll a dc dm)).2.drv.displayMode =
       (dm % 256 &&& 253) % 256) ∧
    (sentBytes (autoscroll (mkI2C okAll a dc dm)).2.trace =
      [SPECIAL_COMMAND % 256,
       (LCD_ENTRYMODESET ||| ((dm % 256 ||| LCD_ENTRYSHIFTINCREMENT) % 256)) % 256] ∧
     (autoscroll (mkI2C okAll a dc dm)).2.drv.displayMode =
       (dm % 256 ||| LCD_ENTRYSHIFTINCREMENT) % 256) ∧
    (sentBytes (noAutoscroll (mkI2C okAll a dc dm)).2.trace =
      [SPECIAL_COMMAND % 256,
       (LCD_ENTRYMODESET ||| ((dm % 256 &&& 254) % 256)) % 256] ∧
     (noAutoscroll (mkI2C okAll a dc dm)).2.drv.displayMode =
       (dm % 256 &&& 254) % 256) ∧
    (dc % 256 &&& 4 = 0 →
      (noDisplay (display (mkI2C okAll a dc dm)).2).2.drv.displayControl = dc % 256) ∧
    (dc % 256 &&& 4 = 4 →
      (display (noDisplay (mkI2C okAll a dc dm)).2).2.drv.displayControl = dc % 256) ∧
    (dc % 256 &&& 2 = 0 →
      (noCursor (cursor (mkI2C okAll a dc dm)).2).2.drv.displayControl = dc % 256) ∧
    (dc % 256 &&& 2 = 2 →
      (cursor (noCursor (mkI2C okAll a dc dm)).2).2.drv.displayControl = dc % 256) ∧
    (dc % 256 &&& 1 = 0 →
      (noBlink (blink (mkI2C okAll a dc dm)).2).2.drv.displayControl = dc % 256) ∧
    (dc % 256 &&& 1 = 1 →
      (blink (noBlink (mkI2C okAll a dc dm)).2).2.drv.displayControl = dc % 256) ∧
    (dm % 256 &&& 2 = 0 →
      (rightToLeft (leftToRight (mkI2C okAll a dc dm)).2).2.drv.displayMode = dm % 256) ∧
    (dm % 256 &&& 2 = 2 →
      (leftToRight (rightToLeft (mkI2C okAll a dc dm)).2).2.drv.displayMode = dm % 256) ∧
    (dm % 256 &&& 1 = 0 →
      (noAutoscroll (autoscroll (mkI2C okAll a dc dm)).2).2.drv.displayMode = dm % 256) ∧
    (dm % 256 &&& 1 = 1 →
      (autoscroll (noAutoscroll (mkI2C okAll a dc dm)).2).2.drv.displayMode = dm % 256) := by
  have hdc : dc % 256 < 256 := Nat.mod_lt _ (by decide)
  have hdm : dm % 256 < 256 := Nat.mod_lt _ (by decide)
  refine ⟨⟨rfl, rfl⟩, ⟨rfl, rfl⟩, ⟨rfl, rfl⟩, ⟨rfl, rfl⟩, ⟨rfl, rfl⟩,
    ⟨rfl, rfl⟩, ⟨rfl, rfl⟩, ⟨rfl, rfl⟩, ⟨rfl, rfl⟩, ⟨rfl, rfl⟩,
    fun h => (mask_restore_facts _ hdc).1 h,
    fun h => (mask_restore_facts _ hdc).2.1 h,
    fun h => (mask_restore_facts _ hdc).2.2.1 h,
    fun h => (mask_restore_facts _ hdc).2.2.2.1 h,
    fun h => (mask_restore_facts _ hdc).2.2.2.2.1 h,
    fun h => (mask_restore_facts _ hdc).2.2.2.2.2 h,
    fun h => (mask_restore_facts _ hdm).2.2.1 h,
    fun h => (mask_restore_facts _ hdm).2.2.2.1 h,
    fun h => (mask_restore_facts _ hdm).2.2.2.2.1 h,
    fun h => (mask_restore_facts _ hdm).2.2.2.2.2 h⟩

/-- C4 witness: starting from a mask with the cursor bit clear,
cursor-on then cursor-off restores the mask. -/
theorem toggleFullMask_witness :
    5 % 256 &&& 2 = 0 ∧
    (noCursor (cursor (mkI2C okAll 0x72 5 2)).2).2.drv.displayControl = 5 % 256 :=
  ⟨by decide, (toggleFullMask 0x72 5 2).2.2.2.2.2.2.2.2.2.2.2.2.1 (by decide)⟩

end SerLCD

namespace SerLCD

/-- C6: for every count N (byte-truncated, including 0), the
repeat-count special command opens exactly one frame, emits exactly N
marker+command pairs inside it (2·N sent bytes), closes the frame and
performs exactly one trailing 50-unit settle; the repeated
scroll/cursor-move operations are precisely this framer applied to
their direction bytes. -/
theorem repeatedSpecialCommandFraming (a dc dm cmd n : Nat) :
    (specialCommandCount (mkI2C okAll a dc dm) cmd n).1 = some true ∧
    (specialCommandCount (mkI2C okAll a dc dm) cmd n).2.trace =
      [.openF (a % 256)] ++ pairEvs cmd (n % 256) ++ [.closeF, .settle 50] ∧
    (pairEvs cmd (n % 256)).length = 2 * (n % 256) ∧
    (∀ (s : Sys) (k : Nat), scrollDisplayLeftN s k =
      specialCommandCount s (LCD_CURSORSHIFT ||| LCD_DISPLAYMOVE ||| LCD_MOVELEFT) k) ∧
    (∀ (s : Sys) (k : Nat), scrollDisplayRightN s k =
      specialCommandCount s (LCD_CURSORSHIFT ||| LCD_DISPLAYMOVE ||| LCD_MOVERIGHT) k) ∧
    (∀ (s : Sys) (k : Nat), moveCursorLeftN s k =
      specialCommandCount s (LCD_CURSORSHIFT ||| LCD_CURSORMOVE ||| LCD_MOVELEFT) k) ∧
    (∀ (s : Sys) (k : Nat), moveCursorRightN s k =
      specialCommandCount s (LCD_CURSORSHIFT ||| LCD_CURSORMOVE ||| LCD_MOVERIGHT) k) := by
  have hrun : specialCommandCount (mkI2C okAll a dc dm) cmd n =
      (some true,
        ⟨(mkI2C okAll a dc dm).drv, 0 + 1 + 2 * (n % 256) + 1,
          ([] ++ [Ev.openF (a % 256)] ++ pairEvs cmd (n % 256) ++ [Ev.closeF]) ++
            [Ev.settle 50]⟩) := by
    rw [specialCommandCount, mkI2C]
    rw [beginTransmission_okAll _ _ _ rfl]
    rw [show andThen (some true,
          (⟨{ port := .i2c okAll, i2cAddr := a % 256, displayControl := dc % 256,
              displayMode := dm % 256 }, 0 + 1, [] ++ [Ev.openF (a % 256)]⟩ : Sys))
        (fun s => andThen (transmitPairs s cmd (n % 256)) endTransmission) =
      andThen (transmitPairs
          (⟨{ port := .i2c okAll, i2cAddr := a % 256, displayControl := dc % 256,
              displayMode := dm % 256 }, 0 + 1, [] ++ [Ev.openF (a % 256)]⟩ : Sys)
          cmd (n % 256)) endTransmission from rfl]
    rw [transmitPairs_okAll _ _ _ _ _ rfl]
    rw [show andThen (some true,
          (⟨{ port := .i2c okAll, i2cAddr := a % 256, displayControl := dc % 256,
              displayMode := dm % 256 }, 0 + 1 + 2 * (n % 256),
            [] ++ [Ev.openF (a % 256)] ++ pairEvs cmd (n % 256)⟩ : Sys))
        endTransmission =
      endTransmission
        (⟨{ port := .i2c okAll, i2cAddr := a % 256, displayControl := dc % 256,
            displayMode := dm % 256 }, 0 + 1 + 2 * (n % 256),
          [] ++ [Ev.openF (a % 256)] ++ pairEvs cmd (n % 256)⟩ : Sys) from rfl]
    rw [endTransmission_okAll _ _ _ rfl]
    rfl
  refine ⟨?_, ?_, pairEvs_length cmd (n % 256),
    fun s k => rfl, fun s k => rfl, fun s k => rfl, fun s k => rfl⟩
  · rw [hrun]
  · rw [hrun]
    simp

end SerLCD

namespace SerLCD

set_option maxHeartbeats 3200000 in
/-- C1: if the transport fails at the k-th primitive call (0-based:
frame open, then the payload bytes, then frame close) of a framed
multi-byte sequence — custom glyph write (12 calls), slow-form
backlight (12 calls), cursor set (4 calls) — the public operation
returns failure and the bytes observed as sent are exactly the ones
from the successful calls before the failure: the length-`(k-1)`
prefix of the sequence's full byte list (no byte after the failing
call is transmitted). -/
theorem shortCircuitOnFailure (k a dc dm loc col row r g b : Nat) (cm : List Nat) :
    (k < 12 →
      (createChar (mkI2C (okUpTo k) a dc dm) loc cm).1 = some false ∧
      sentBytes (createChar (mkI2C (okUpTo k) a dc dm) loc cm).2.trace =
        (sentBytes (createChar (mkI2C okAll a dc dm) loc cm).2.trace).take (k - 1)) ∧
    (k < 12 →
      (setBacklightRGB (mkI2C (okUpTo k) a dc dm) r g b).1 = some false ∧
      sentBytes (setBacklightRGB (mkI2C (okUpTo k) a dc dm) r g b).2.trace =
        (sentBytes (setBacklightRGB (mkI2C okAll a dc dm) r g b).2.trace).take (k - 1)) ∧
    (k < 4 →
      (setCursor (mkI2C (okUpTo k) a dc dm) col row).1 = some false ∧
      sentBytes (setCursor (mkI2C (okUpTo k) a dc dm) col row).2.trace =
        (sentBytes (setCursor (mkI2C okAll a dc dm) col row).2.trace).take (k - 1)) := by
  refine ⟨fun hk => ?_, fun hk => ?_, fun hk => ?_⟩
  · interval_cases k <;> exact ⟨rfl, rfl⟩
  · interval_cases k <;> exact ⟨rfl, rfl⟩
  · interval_cases k <;> exact ⟨rfl, rfl⟩

/-- C1 witness: failing the third primitive call (the slot-selector
byte) of `createChar` yields failure with only the setting marker
observed as sent. -/
theorem shortCircuitOnFailure_witness :
    (2 : Nat) < 12 ∧
    ((createChar (mkI2C (okUpTo 2) 0x72 4 2) 9 [1, 2, 3, 4, 5, 6, 7, 8]).1 =
        some false ∧
      sentBytes (createChar (mkI2C (okUpTo 2) 0x72 4 2) 9
          [1, 2, 3, 4, 5, 6, 7, 8]).2.trace =
        (sentBytes (createChar (mkI2C okAll 0x72 4 2) 9
            [1, 2, 3, 4, 5, 6, 7, 8]).2.trace).take (2 - 1)) :=
  ⟨by decide,
    (shortCircuitOnFailure 2 0x72 4 2 9 0 0 0 0 0 [1, 2, 3, 4, 5, 6, 7, 8]).1
      (by decide)⟩

end SerLCD

namespace SerLCD

/-- C8 counterexample: calling the slow-form backlight with the
display-on shadow bit clear (display previously off) succeeds and
leaves the bit **set** — the operation does not restore the bit to its
pre-call value. -/
theorem setBacklightDisplayBitChanged :
    (setBacklightRGB (mkI2C okAll DISPLAY_ADDRESS1 0 2) 1 2 3).1 = some true ∧
    ((setBacklightRGB (mkI2C okAll DISPLAY_ADDRESS1 0 2) 1 2 3).2.drv.displayControl
        &&& LCD_DISPLAYON) ≠
      ((mkI2C okAll DISPLAY_ADDRESS1 0 2).drv.displayControl &&& LCD_DISPLAYON) := by
  exact ⟨rfl, by decide⟩

set_option maxHeartbeats 1600000 in
/-- C8 (amended): the slow-form backlight clears the display-on
shadow bit right after the frame opens and sets it unconditionally
once the display-off resend and the three colour bytes have gone
through.  Exit paths (k = index of the first failing transport call):
if opening the frame fails (k = 0) the mask is untouched; if one of
the next 8 transmits fails (1 ≤ k ≤ 8) the operation fails with the
bit left cleared; if the restore-side resend or close fails
(9 ≤ k ≤ 11) or everything succeeds, the bit ends up set — even when
it was clear before the call. -/
theorem setBacklightDisplayBitPaths (k a dc dm r g b : Nat) :
    (k = 0 →
      (setBacklightRGB (mkI2C (okUpTo k) a dc dm) r g b).1 = some false ∧
      (setBacklightRGB (mkI2C (okUpTo k) a dc dm) r g b).2.drv.displayControl =
        dc % 256) ∧
    (1 ≤ k → k ≤ 8 →
      (setBacklightRGB (mkI2C (okUpTo k) a dc dm) r g b).1 = some false ∧
      (setBacklightRGB (mkI2C (okUpTo k) a dc dm) r g b).2.drv.displayControl =
        (dc % 256 &&& 251) % 256) ∧
    (9 ≤ k → k ≤ 11 →
      (setBacklightRGB (mkI2C (okUpTo k) a dc dm) r g b).1 = some false ∧
      (setBacklightRGB (mkI2C (okUpTo k) a dc dm) r g b).2.drv.displayControl =
        (((dc % 256 &&& 251) % 256) ||| 4) % 256) ∧
    ((setBacklightRGB (mkI2C okAll a dc dm) r g b).1 = some true ∧
      (setBacklightRGB (mkI2C okAll a dc dm) r g b).2.drv.displayControl =
        (((dc % 256 &&& 251) % 256) ||| 4) % 256) := by
  refine ⟨fun h0 => ?_, fun h1 h2 => ?_, fun h1 h2 => ?_, ⟨rfl, rfl⟩⟩
  · subst h0; exact ⟨rfl, rfl⟩
  · interval_cases k <;> exact ⟨rfl, rfl⟩
  · interval_cases k <;> exact ⟨rfl, rfl⟩

/-- C8 witness: with the fifth transport call failing, the operation
fails and the display-on bit is left cleared. -/
theorem setBacklightDisplayBitPaths_witness :
    (1 : Nat) ≤ 5 ∧ (5 : Nat) ≤ 8 ∧
    ((setBacklightRGB (mkI2C (okUpTo 5) 0x72 7 2) 0 0 0).1 = some false ∧
      (setBacklightRGB (mkI2C (okUpTo 5) 0x72 7 2) 0 0 0).2.drv.displayControl =
        (7 % 256 &&& 251) % 256) :=
  ⟨by decide, by decide,
    (setBacklightDisplayBitPaths 5 0x72 7 2 0 0 0).2.1 (by decide) (by decide)⟩

/-- C10: in every state reachable from construction by any sequence
of public operations, the shadow `displayControl` mask holds only the
display-on / cursor-on / blink-on bits (its bits above `0x07` are
zero) and the shadow `displayMode` mask holds only the entry-left /
shift-increment bits (its bits above `0x03` are zero). -/
theorem shadowMasksWellFormed (s : Sys) (h : Reaches s) :
    s.drv.displayControl &&& (255 ^^^ 0x07) = 0 ∧
    s.drv.displayMode &&& (255 ^^^ 0x03) = 0 := by
  have hk := reaches_masks_small s h
  exact ⟨(dc_small_facts _ hk.1).2.2.2.2.2.2.2, (dm_small_facts _ hk.2).2.2.2.2⟩

/-- C10 witness: the state after binding an I2C transport and turning
the cursor on satisfies the mask invariant. -/
theorem shadowMasksWellFormed_witness :
    (cursor (initialSys (.i2c okAll) DISPLAY_ADDRESS1)).2.drv.displayControl &&&
        (255 ^^^ 0x07) = 0 ∧
    (cursor (initialSys (.i2c okAll) DISPLAY_ADDRESS1)).2.drv.displayMode &&&
        (255 ^^^ 0x03) = 0 :=
  shadowMasksWellFormed _
    (Reaches.stepCursor _ (Reaches.base (.i2c okAll) DISPLAY_ADDRESS1))

end SerLCD
